import Mathlib

/-!
# Verification of the weblablib session/task core

Shallow embedding of the session state machine and task subsystem of
weblablib (files `weblablib/ops.py`, `weblablib/users.py`,
`weblablib/tasks.py`, `weblablib/utils.py`,
`weblablib/backends/redis_manager.py`, `weblablib/views.py`).

Modelling conventions:
* Redis hashes become structures whose fields are `Option`-valued (a
  `none` field models an absent hash field); a whole key being absent is
  modelled by the store map returning `none` for that key.
* Each Redis pipeline (one atomic round trip in the source) becomes one
  pure transition on the store; sequences of round trips are sequential
  composition.
* Timestamps are rationals (`ℚ`); Python `int()` on a non-negative float
  is `Int.floor`.
* User `data` payloads are kept in their JSON-serialised form as opaque
  `String`s: none of the embedded operations inspects their contents.
* Fallible Python code (raising) returns `Except PyErr _`.
* Fields of the session hash that no embedded operation reads or branches
  on (username, locale, back, ...) are omitted from the hash structure;
  `get_user` selects the user variant only from `max_date` presence.
-/

namespace Weblablib

/-- Python-level exceptions raised by the embedded code. -/
inductive PyErr
  | notFound
  | notImplementedErr (msg : String)
  | typeErr (msg : String)
  | valueErr (msg : String)
  | alreadyRunning (msg : String)
  | timeoutExpired (msg : String)
  | runtimeErr (msg : String)
  deriving Repr, DecidableEq

/-- Relevant configuration of the `WebLab` object (`__init__.py`):
`timeout` (seconds without polling before expiry, default 15),
`poll_interval` (default 5), and whether an `on_dispose` hook was
registered. -/
structure WebLabCfg where
  timeout : ℚ
  poll_interval : ℤ
  hasOnDispose : Bool
  deriving Repr, DecidableEq

/-- One Redis session hash (`<prefix>:weblab:active:<sid>` or
`<prefix>:weblab:inactive:<sid>`), restricted to the fields the embedded
operations read or write.  Each field is `none` when the hash field is
absent. -/
structure SessionHash where
  max_date : Option ℚ
  last_poll : Option ℚ
  data : Option String
  exited : Option Bool
  disposing_resources : Option Bool
  deriving Repr, DecidableEq

/-- A hash freshly created by an `hset` on a missing key. -/
def emptyHash : SessionHash :=
  ⟨none, none, none, none, none⟩

/-- Update one key of a string-keyed map. -/
def updKey {α : Type} (m : String → Option α) (k : String) (v : Option α) :
    String → Option α :=
  fun q => if q = k then v else m q

/-- The session-related part of the Redis store: the active hashes, the
inactive hashes, and the `<prefix>:weblab:sessions:<sid>` existence
markers (`marker sid = true` iff the key exists). -/
structure SessionStore where
  active : String → Option SessionHash
  inactive : String → Option SessionHash
  marker : String → Bool

/-- `max_date` field of the active hash of `sid` (absent key gives `none`). -/
def SessionStore.activeMaxDate (st : SessionStore) (sid : String) : Option ℚ :=
  (st.active sid).bind (fun h => h.max_date)

/-- `max_date` field of the inactive hash of `sid`. -/
def SessionStore.inactiveMaxDate (st : SessionStore) (sid : String) : Option ℚ :=
  (st.inactive sid).bind (fun h => h.max_date)

/-- `CurrentUser` (users.py), restricted to the fields the embedded code
branches on; `data` is kept JSON-serialised. -/
structure CurrentUser where
  session_id : String
  max_date : ℚ
  last_poll : ℚ
  exited : Bool
  data : String
  deriving Repr, DecidableEq

/-- `ExpiredUser` (users.py), restricted to the fields the embedded code
branches on. -/
structure ExpiredUser where
  session_id : String
  max_date : ℚ
  data : String
  disposing_resources : Bool
  deriving Repr, DecidableEq

/-- The tagged user variant returned by `RedisManager.get_user`. -/
inductive WUser
  | anonymous
  | current (c : CurrentUser)
  | expired (e : ExpiredUser)
  deriving Repr, DecidableEq

/-- `CurrentUser.time_without_polling` (users.py). -/
def CurrentUser.time_without_polling (c : CurrentUser) (now : ℚ) : ℚ :=
  now - c.last_poll

/-- `CurrentUser.time_left` (users.py): `max(0, max_date - now)`. -/
def CurrentUser.time_left (c : CurrentUser) (now : ℚ) : ℚ :=
  max 0 (c.max_date - now)

namespace RedisManager

/-- `RedisManager.get_expired_user`: read the inactive hash; if its
`max_date` is present build an `ExpiredUser`, otherwise `AnonymousUser`.
(On every inactive hash the library stores, `data` and
`disposing_resources` accompany `max_date`, so the `getD` defaults are
never exercised on reachable stores.) -/
def get_expired_user (st : SessionStore) (session_id : String) : WUser :=
  match st.inactiveMaxDate session_id with
  | some md =>
      .expired { session_id := session_id, max_date := md,
                 data := ((st.inactive session_id).bind (fun h => h.data)).getD "",
                 disposing_resources :=
                   ((st.inactive session_id).bind
                     (fun h => h.disposing_resources)).getD false }
  | none => .anonymous

/-- `RedisManager.get_user`: read the active hash in one pipeline; if its
`max_date` is present build a `CurrentUser`, else fall back to
`get_expired_user`.  (On every hash the library itself stores, a present
`max_date` comes with all the other fields, so the `getD` defaults are
never exercised on reachable stores.) -/
def get_user (st : SessionStore) (session_id : String) : WUser :=
  match st.activeMaxDate session_id with
  | some md =>
      .current { session_id := session_id, max_date := md,
                 last_poll := ((st.active session_id).bind (fun h => h.last_poll)).getD 0,
                 exited := ((st.active session_id).bind (fun h => h.exited)).getD false,
                 data := ((st.active session_id).bind (fun h => h.data)).getD "" }
  | none => get_expired_user st session_id

/-- `RedisManager.poll`: one pipeline reads `max_date` and writes
`last_poll` (the `hset` re-creates the key when absent); a second command
deletes the key if the observed `max_date` was absent. -/
def poll (st : SessionStore) (session_id : String) (now : ℚ) : SessionStore :=
  let max_date := st.activeMaxDate session_id
  let h0 := (st.active session_id).getD emptyHash
  let st1 := { st with active := updKey st.active session_id (some { h0 with last_poll := some now }) }
  if max_date = none then
    { st1 with active := updKey st1.active session_id none }
  else st1

/-- `RedisManager.update_data`: one pipeline reads both `max_date` fields
and writes `data` into both hashes (re-creating absent keys); afterwards
each key whose `max_date` was observed absent is deleted. -/
def update_data (st : SessionStore) (session_id : String) (data : String) :
    SessionStore :=
  let mda := st.activeMaxDate session_id
  let mdi := st.inactiveMaxDate session_id
  let ha := (st.active session_id).getD emptyHash
  let hi := (st.inactive session_id).getD emptyHash
  let st1 := { st with
    active := updKey st.active session_id (some { ha with data := some data }),
    inactive := updKey st.inactive session_id (some { hi with data := some data }) }
  let st2 :=
    if mda = none then { st1 with active := updKey st1.active session_id none }
    else st1
  if mdi = none then { st2 with inactive := updKey st2.inactive session_id none }
  else st2

/-- The inactive hash `RedisManager.delete_user` writes for the expired
user built by `CurrentUser.to_expired_user`: `max_date` and `data` are
copied, `disposing_resources` is hard-coded to `True`, and neither
`last_poll` nor `exited` is written. -/
def deleteUserInactiveHash (c : CurrentUser) : SessionHash :=
  { max_date := some c.max_date, last_poll := none, data := some c.data,
    exited := none, disposing_resources := some true }

/-- `RedisManager.delete_user`: first round trip reads `max_date` of the
active hash and returns `False` when absent; the second (atomic) pipeline
deletes the active key and writes the inactive hash, and the call returns
whether the `delete` removed an existing key. -/
def delete_user (st : SessionStore) (session_id : String) (expired : SessionHash) :
    Bool × SessionStore :=
  if st.activeMaxDate session_id = none then (false, st)
  else
    let existed := (st.active session_id).isSome
    (existed,
     { st with active := updKey st.active session_id none,
               inactive := updKey st.inactive session_id (some expired) })

/-- `RedisManager.finished_dispose`: `hset` `disposing_resources := False`
on the inactive hash; if the `hset` created the field (return value 1,
i.e. the field was absent before), delete the whole key. -/
def finished_dispose (st : SessionStore) (session_id : String) : SessionStore :=
  let fresh := ((st.inactive session_id).bind (fun h => h.disposing_resources)) = none
  let h0 := (st.inactive session_id).getD emptyHash
  let h1 : SessionHash := { h0 with disposing_resources := some false }
  let st1 := { st with inactive := updKey st.inactive session_id (some h1) }
  if fresh then { st1 with inactive := updKey st1.inactive session_id none }
  else st1

/-- `RedisManager.is_session_deleted`: the existence marker is gone. -/
def is_session_deleted (st : SessionStore) (session_id : String) : Bool :=
  ! st.marker session_id

/-- `RedisManager.report_session_deleted`: delete the existence marker. -/
def report_session_deleted (st : SessionStore) (session_id : String) : SessionStore :=
  { st with marker := fun q => if q = session_id then false else st.marker q }

end RedisManager

/-- A JSON value as stored for a task `result`, reduced to what the
embedded code branches on: its Python truthiness, plus an opaque
serialised payload.  (`none` at the use sites models Python `None` /
JSON `null`.) -/
structure PyVal where
  truthy : Bool
  payload : String
  deriving Repr, DecidableEq

/-- A task `error` object `{code, class, message}` (always a non-empty
dict, hence always truthy in Python). -/
structure ErrObj where
  code : String
  cls : String
  message : String
  deriving Repr, DecidableEq

/-- One Redis task hash (`<prefix>:weblab:tasks:<task_id>`).  Outer
`Option` on a field models hash-field absence; for `error` and `result`
the inner `Option` models JSON `null`.  `running` records the *presence*
of the `running` field, which is the atomic claim marker. -/
structure TaskHash where
  name : Option String
  session_id : Option String
  args : Option String
  kwargs : Option String
  finished : Option String
  error : Option (Option ErrObj)
  result : Option (Option PyVal)
  data : Option String
  stopping : Option Bool
  running : Bool
  deriving Repr, DecidableEq

/-- A task hash freshly created by an `hset` on a missing key. -/
def emptyTaskHash : TaskHash :=
  ⟨none, none, none, none, none, none, none, none, none, false⟩

/-- The task-related part of the Redis store: the task hashes and the
per-session task-id sets (`<prefix>:weblab:<sid>:tasks`). -/
structure TaskStore where
  tasks : String → Option TaskHash
  sessionTasks : String → List String

/-- Replace the hash stored under one task id. -/
def TaskStore.setTask (ts : TaskStore) (task_id : String) (h : Option TaskHash) :
    TaskStore :=
  { ts with tasks := updKey ts.tasks task_id h }

/-- The hash written by `RedisManager.new_task`'s registration pipeline:
all parameter fields, `finished := 'false'`, `error := null`,
`result := null`, empty `data`, `stopping := False`, and *no* `running`
field. -/
def newTaskHash (name session_id args kwargs : String) : TaskHash :=
  { name := some name, session_id := some session_id, args := some args,
    kwargs := some kwargs, finished := some "false", error := some none,
    result := some none, data := some "{}", stopping := some false,
    running := false }

/-- `RedisManager.new_task` (without the token-uniqueness retry loop,
which only picks a fresh key): register the task hash and add the id to
the session's task set. -/
def RedisManager.new_task (ts : TaskStore) (session_id task_id name args kwargs : String) :
    TaskStore :=
  { tasks := updKey ts.tasks task_id (some (newTaskHash name session_id args kwargs)),
    sessionTasks := fun s =>
      if s = session_id then
        (if task_id ∈ ts.sessionTasks s then ts.sessionTasks s
         else task_id :: ts.sessionTasks s)
      else ts.sessionTasks s }

/-- The dictionary `RedisManager.start_task` returns to the winning
claimer. -/
structure TaskParams where
  name : String
  args : Option String
  kwargs : Option String
  session_id : Option String
  deriving Repr, DecidableEq

/-- `RedisManager.start_task`: one pipeline does `hset running '1'` and
reads `name`, `args`, `kwargs`, `session_id`.  If the `hset` did not
create the field (another thread claimed first) return `None`; if the
record was deleted before (`name` absent) delete the partially re-created
key and return `None`; otherwise return the parameters. -/
def RedisManager.start_task (ts : TaskStore) (task_id : String) :
    Option TaskParams × TaskStore :=
  let h0 := (ts.tasks task_id).getD emptyTaskHash
  let newField := ! h0.running
  let h1 : TaskHash := { h0 with running := true }
  let ts1 := ts.setTask task_id (some h1)
  if ! newField then (none, ts1)
  else
    match h0.name with
    | none => (none, ts1.setTask task_id none)
    | some n =>
        (some { name := n, args := h0.args, kwargs := h0.kwargs,
                session_id := h0.session_id }, ts1)

/-- Python truthiness of a task result argument (`None` is falsy). -/
def resTruthy : Option PyVal → Bool
  | some v => v.truthy
  | none => false

/-- `RedisManager.finish_task`: raise `ValueError` when `error and result`
is truthy (a non-null `error` together with a *truthy* `result`);
otherwise one pipeline reads `session_id` and writes `finished := 'true'`,
`result` and `error`; if `session_id` was absent, delete the key. -/
def RedisManager.finish_task (ts : TaskStore) (task_id : String)
    (result : Option PyVal) (error : Option ErrObj) :
    Except PyErr TaskStore :=
  if error.isSome && resTruthy result then
    .error (.valueErr "You can't provide result and error: either one or the other")
  else
    let h0 := (ts.tasks task_id).getD emptyTaskHash
    let h1 : TaskHash := { h0 with finished := some "true",
                                   result := some result, error := some error }
    let ts1 := ts.setTask task_id (some h1)
    if h0.session_id = none then .ok (ts1.setTask task_id none)
    else .ok ts1

/-- `RedisManager.update_task_data`: one pipeline reads `name` and writes
`data`; if `name` was absent, delete the key. -/
def RedisManager.update_task_data (ts : TaskStore) (task_id : String)
    (new_data : String) : TaskStore :=
  let h0 := (ts.tasks task_id).getD emptyTaskHash
  let h1 : TaskHash := { h0 with data := some new_data }
  let ts1 := ts.setTask task_id (some h1)
  if h0.name = none then ts1.setTask task_id none else ts1

/-- `RedisManager.request_stop_task`: one pipeline reads `name` and writes
`stopping := True`; if `name` was absent, delete the key. -/
def RedisManager.request_stop_task (ts : TaskStore) (task_id : String) : TaskStore :=
  let h0 := (ts.tasks task_id).getD emptyTaskHash
  let h1 : TaskHash := { h0 with stopping := some true }
  let ts1 := ts.setTask task_id (some h1)
  if h0.name = none then ts1.setTask task_id none else ts1

/-- The dictionary returned by `RedisManager.get_task`. -/
structure TaskInfo where
  task_id : String
  result : Option PyVal
  error : Option ErrObj
  status : String
  session_id : String
  name : Option String
  data : String
  stopping : Bool
  deriving Repr, DecidableEq

/-- `RedisManager.get_task`: read all fields in one pipeline; `None` when
`session_id` is absent; otherwise `json.loads` the stored `error`,
`result`, `data` and `stopping` (raising `TypeError` if one of those
fields is missing, as `json.loads(None)` does) and derive the status:
`submitted` without the claim marker, else `failed`/`done` when
`finished == 'true'` according to the truthiness of `error`, else
`running`. -/
def RedisManager.get_task (ts : TaskStore) (task_id : String) :
    Except PyErr (Option TaskInfo) :=
  match ts.tasks task_id with
  | none => .ok none
  | some h =>
    match h.session_id with
    | none => .ok none
    | some sid =>
      match h.error, h.result, h.data, h.stopping with
      | some err, some res, some data, some stopping =>
          let status :=
            if ! h.running then "submitted"
            else if h.finished = some "true" then
              (if err.isSome then "failed" else "done")
            else "running"
          .ok (some { task_id := task_id, result := res, error := err,
                      status := status, session_id := sid, name := h.name,
                      data := data, stopping := stopping })
      | _, _, _, _ => .error (.typeErr "json.loads(None)")

/-- `RedisManager.get_unfinished_tasks`: the session's task ids whose
stored `finished` field reads `'false'` (a finished task reads `'true'`,
an expired or deleted one `None`). -/
def RedisManager.get_unfinished_tasks (ts : TaskStore) (session_id : String) :
    List String :=
  (ts.sessionTasks session_id).filter
    (fun tid => ((ts.tasks tid).bind (fun h => h.finished)) = some "false")

/-- `RedisManager.clean_session_tasks`: delete the session's task set and
every task hash it lists. -/
def RedisManager.clean_session_tasks (ts : TaskStore) (session_id : String) :
    TaskStore :=
  { tasks := fun tid =>
      if tid ∈ ts.sessionTasks session_id then none else ts.tasks tid,
    sessionTasks := fun s => if s = session_id then [] else ts.sessionTasks s }

/-- The `<prefix>:weblab:global-unique-tasks:<name>` lock keys:
`true` iff the key exists (it only ever carries the single field
`running = 1`). -/
def LockStore : Type := String → Bool

/-- `RedisManager.lock_global_unique_task`: one pipeline does
`hset key running 1` (and refreshes the expiry); the lock is acquired iff
the `hset` created the field, i.e. iff the key was absent. -/
def RedisManager.lock_global_unique_task (st : LockStore) (task_name : String) :
    Bool × LockStore :=
  (! st task_name, fun k => if k = task_name then true else st k)

/-- `RedisManager.unlock_global_unique_task`: delete the lock key. -/
def RedisManager.unlock_global_unique_task (st : LockStore) (task_name : String) :
    LockStore :=
  fun k => if k = task_name then false else st k

/-- `_TaskWrapper.__call__` (tasks.py) for a task registered with
`unique='global'`: acquire the global lock, raising `AlreadyRunningError`
when contended (before the `try`, so the lock of the running invocation
is left untouched); otherwise run the wrapped function — modelled by its
outcome `funcResult`, `.ok` for a normal return and `.error` for a raise
— and release the lock in the `finally` block in either case. -/
def taskWrapperCallGlobal {α : Type} (task_name : String)
    (funcResult : Except PyErr α) (st : LockStore) :
    Except PyErr α × LockStore :=
  let locked := RedisManager.lock_global_unique_task st task_name
  if ! locked.1 then
    (.error (.alreadyRunning
      ("This task (" ++ task_name ++ ") has been sent in parallel and it is still running")),
     locked.2)
  else
    (funcResult, RedisManager.unlock_global_unique_task locked.2 task_name)

/-- The polling wait loop of `WebLabTask.join` (tasks.py): at step `k`,
`retrieve().finished` is `finishedAt k` and `time.time() - initial_time`
is `elapsedAt k`.  A truthy `timeout` (non-`None` and non-zero) past
which time has run out either raises `TimeoutError` or just returns.
`fuel` bounds the modelled number of iterations; `none` means the loop is
still spinning after `fuel` iterations. -/
def joinLoop (finishedAt : Nat → Bool) (elapsedAt : Nat → ℚ)
    (timeout : Option ℚ) (error_on_timeout : Bool) :
    Nat → Nat → Option (Except PyErr Unit)
  | 0, _ => none
  | fuel + 1, k =>
    if finishedAt k then some (.ok ())
    else
      match timeout with
      | some t =>
          if t ≠ 0 then
            if elapsedAt k > t then
              if error_on_timeout then
                some (.error (.timeoutExpired "timeout seconds passed"))
              else some (.ok ())
            else joinLoop finishedAt elapsedAt timeout error_on_timeout fuel (k + 1)
          else joinLoop finishedAt elapsedAt timeout error_on_timeout fuel (k + 1)
      | none => joinLoop finishedAt elapsedAt timeout error_on_timeout fuel (k + 1)

/-- `WebLabTask.join` (tasks.py): when there is a thread-local current
task with the same task id, raise `RuntimeError` immediately; otherwise
enter the polling wait loop. -/
def WebLabTask.join (current_task_id : Option String) (self_task_id : String)
    (finishedAt : Nat → Bool) (elapsedAt : Nat → ℚ)
    (timeout : Option ℚ) (error_on_timeout : Bool) (fuel : Nat) :
    Option (Except PyErr Unit) :=
  match current_task_id with
  | some tid =>
      if tid = self_task_id then
        some (.error (.runtimeErr "Deadlock detected: you're calling join from the task itself"))
      else joinLoop finishedAt elapsedAt timeout error_on_timeout fuel 0
  | none => joinLoop finishedAt elapsedAt timeout error_on_timeout fuel 0

/-- `status_time` (ops.py), pure core on the user variant returned by
`get_user`: `2` for an `ExpiredUser` still disposing; `-1` for anonymous
or (non-disposing) expired users, for an exited user, for a positive
configured timeout that has been exceeded without polling, and for no
time left; otherwise `min(poll_interval, int(time_left))` (Python `int`
on the non-negative `time_left` is the floor). -/
def status_time_user (cfg : WebLabCfg) (now : ℚ) (user : WUser) : ℤ :=
  match user with
  | .expired e => if e.disposing_resources then 2 else -1
  | .anonymous => -1
  | .current c =>
    if c.exited then -1
    else if 0 < cfg.timeout ∧ cfg.timeout ≤ c.time_without_polling now then -1
    else if c.time_left now ≤ 0 then -1
    else min cfg.poll_interval ⌊c.time_left now⌋

/-- `status_time(session_id)` (ops.py): look the user up through the
backend and apply the pure core. -/
def status_time (cfg : WebLabCfg) (now : ℚ) (st : SessionStore)
    (session_id : String) : ℤ :=
  status_time_user cfg now (RedisManager.get_user st session_id)

/-- The shared failure of every mapping operation of
`AnonymousDataImmutableDict` (users.py): `_method` raises `TypeError`. -/
def AnonymousDataImmutableDict.anonMethod {α : Type} : Except PyErr α :=
  .error (.typeErr "Anonymous user contains no valid data")

/-- `AnonymousDataImmutableDict.__getitem__` (alias of `_method`). -/
def AnonymousDataImmutableDict.getitem (_key : String) : Except PyErr String :=
  AnonymousDataImmutableDict.anonMethod

/-- `AnonymousDataImmutableDict.__setitem__` (alias of `_method`). -/
def AnonymousDataImmutableDict.setitem (_key _value : String) : Except PyErr Unit :=
  AnonymousDataImmutableDict.anonMethod

/-- `AnonymousDataImmutableDict.__delitem__` (alias of `_method`). -/
def AnonymousDataImmutableDict.delitem (_key : String) : Except PyErr Unit :=
  AnonymousDataImmutableDict.anonMethod

/-- `AnonymousDataImmutableDict.__iter__` (alias of `_method`). -/
def AnonymousDataImmutableDict.iterate : Except PyErr (List String) :=
  AnonymousDataImmutableDict.anonMethod

/-- `AnonymousDataImmutableDict.__len__` (alias of `_method`). -/
def AnonymousDataImmutableDict.length : Except PyErr Nat :=
  AnonymousDataImmutableDict.anonMethod

/-- `AnonymousDataImmutableDict.get` (alias of `_method`). -/
def AnonymousDataImmutableDict.get (_key : String) : Except PyErr (Option String) :=
  AnonymousDataImmutableDict.anonMethod

/-- `AnonymousDataImmutableDict.update` (alias of `_method`). -/
def AnonymousDataImmutableDict.update (_other : List (String × String)) :
    Except PyErr Unit :=
  AnonymousDataImmutableDict.anonMethod

/-- `AnonymousDataImmutableDict.pop` (alias of `_method`). -/
def AnonymousDataImmutableDict.pop (_key : String) : Except PyErr String :=
  AnonymousDataImmutableDict.anonMethod

/-- `AnonymousDataImmutableDict.clear` (alias of `_method`). -/
def AnonymousDataImmutableDict.clear : Except PyErr Unit :=
  AnonymousDataImmutableDict.anonMethod

/-- `AnonymousDataImmutableDict.keys` (alias of `_method`). -/
def AnonymousDataImmutableDict.keys : Except PyErr (List String) :=
  AnonymousDataImmutableDict.anonMethod

/-- `AnonymousDataImmutableDict.items` (alias of `_method`). -/
def AnonymousDataImmutableDict.items : Except PyErr (List (String × String)) :=
  AnonymousDataImmutableDict.anonMethod

/-- The `ExpiredUser.data` property setter (users.py): raising before any
assignment, it returns the error together with the (unchanged) user
object. -/
def ExpiredUser.trySetData (u : ExpiredUser) (_value : String) :
    Except PyErr Unit × ExpiredUser :=
  (.error (.notImplementedErr "You can't change data on an ExpiredUser"), u)

/-- `ExpiredUser.update_data` (users.py): raising before any assignment,
it returns the error together with the (unchanged) user object. -/
def ExpiredUser.update_data (u : ExpiredUser) (_value : Option String) :
    Except PyErr Unit × ExpiredUser :=
  (.error (.notImplementedErr "You can't change data on an ExpiredUser"), u)

/-- The URL-safe base-64 alphabet used by `base64.urlsafe_b64encode`
(values 62 and 63 are `-` and `_`). -/
def b64Alphabet : List Char :=
  "ABCDEFGHIJKLMNOPQRSTUVWXYZabcdefghijklmnopqrstuvwxyz0123456789-_".toList

/-- The alphabet character of a 6-bit value. -/
def b64Char (i : Nat) : Char :=
  b64Alphabet.getD i 'A'

/-- `base64.urlsafe_b64encode` on a byte string: 3-byte groups map to 4
alphabet characters; a trailing group of 2 or 1 bytes maps to 3 or 2
characters followed by `=` padding. -/
def b64Encode : List Nat → List Char
  | b1 :: b2 :: b3 :: rest =>
      b64Char (b1 / 4) :: b64Char (b1 % 4 * 16 + b2 / 16) ::
      b64Char (b2 % 16 * 4 + b3 / 64) :: b64Char (b3 % 64) :: b64Encode rest
  | [b1, b2] =>
      [b64Char (b1 / 4), b64Char (b1 % 4 * 16 + b2 / 16), b64Char (b2 % 16 * 4), '=']
  | [b1] => [b64Char (b1 / 4), b64Char (b1 % 4 * 16), '=', '=']
  | [] => []

/-- `create_token` (utils.py) as a function of the `os.urandom(size)`
bytes it consumes: url-safe base-64 encode, drop the `=` padding
(`replace(b'=', b'')`; the `strip()` before it never removes anything,
as no alphabet character is whitespace), and map `-` to `_`
(`replace(b'-', b'_')`). -/
def create_token (randomBytes : List Nat) : String :=
  String.mk
    (((b64Encode randomBytes).filter (fun c => c ≠ '=')).map
      (fun c => if c = '-' then '_' else c))

/-- The default token size: `create_token()` uses `size = 32`. -/
def defaultTokenSize : Nat := 32

/-- The session id minted by `views._process_start_request`:
`create_token()` on 32 fresh random bytes. -/
def start_request_session_id (randomBytes : List Nat) : String :=
  create_token randomBytes

/-- The task id minted by `RedisManager.new_task`: `create_token()` on 32
fresh random bytes (the retry loop only redraws the bytes, which the
parameter already captures). -/
def new_task_task_id (randomBytes : List Nat) : String :=
  create_token randomBytes

/-- The registration-time check of `_TaskWrapper.__init__` (tasks.py):
raise `ValueError` when the wrapped function's `__name__` has exactly the
length of a freshly generated default token. -/
def taskWrapperInitCheck (name : String) (freshTokenBytes : List Nat) :
    Except PyErr Unit :=
  if name.length = (create_token freshTokenBytes).length then
    .error (.valueErr ("The function '" ++ name ++ "' has an invalid name"))
  else .ok ()

/-- Combined backend state seen by `dispose_user`. -/
structure LabState where
  sessions : SessionStore
  tasks : TaskStore

/-- How a `dispose_user` call ends in the sequential model: it raises
`NotFoundError`, it blocks forever on another thread (the task-draining
loop or the `waiting` loop, which only other workers can release), or it
returns. -/
inductive DisposeResult
  | notFound
  | blocked
  | ok
  deriving Repr, DecidableEq

/-- Outcome of one `dispose_user` call: its result, the state it left
behind (for a blocked call, the state at the blocking point — every
session-record effect precedes both loops except the final marker
delete), and whether the lab's `on_dispose` hook was invoked. -/
structure DisposeOutcome where
  result : DisposeResult
  state : LabState
  hookRan : Bool

/-- The stop sweep of `dispose_user`: for each unfinished task id of the
session, `weblab.get_task` returns it only when the stored record exists
and belongs to this session, and then `stop()` requests a cooperative
stop. -/
def stopUnfinished (ts : TaskStore) (session_id : String) : TaskStore :=
  (RedisManager.get_unfinished_tasks ts session_id).foldl
    (fun acc tid =>
      if ((acc.tasks tid).bind (fun h => h.session_id)) = some session_id then
        RedisManager.request_stop_task acc tid
      else acc)
    ts

/-- The backend effect of the `on_dispose` section of `dispose_user`:
when a hook is registered, after invoking it (exceptions swallowed)
`update_weblab_user_data(None)` runs, which calls `backend.update_data`
when the cached user is active (`not exited`) and the serialised data
changed (`hookWrite = some d` supplies that changed data, `none` models
an unchanged payload). -/
def disposeHookWrite (cfg : WebLabCfg) (c : CurrentUser) (s : SessionStore)
    (session_id : String) (hookWrite : Option String) : SessionStore :=
  if cfg.hasOnDispose then
    if ! c.exited then
      match hookWrite with
      | some d => RedisManager.update_data s session_id d
      | none => s
    else s
  else s

/-- `dispose_user(session_id, waiting)` (ops.py).  The lab's `on_dispose`
hook itself is opaque lab code; its only backend-visible effect is the
`update_weblab_user_data(None)` that follows it, which calls
`backend.update_data` when the cached user is active (has not exited) and
the data changed — `hookWrite = some d` supplies that changed serialised
data, `none` models an unchanged payload.  Exceptions inside the hook are
swallowed, so `hookRan` records invocation, not success.  A call that
reaches the task-draining loop with unfinished tasks still pending
blocks (only another worker could finish them); likewise a `waiting=True`
call blocks while the existence marker of a session someone else is
still disposing remains. -/
def dispose_user (cfg : WebLabCfg) (st : LabState) (session_id : String)
    (waiting : Bool) (hookWrite : Option String) : DisposeOutcome :=
  match RedisManager.get_user st.sessions session_id with
  | .anonymous => ⟨.notFound, st, false⟩
  | .expired _ =>
      if waiting && ! RedisManager.is_session_deleted st.sessions session_id then
        ⟨.blocked, st, false⟩
      else ⟨.ok, st, false⟩
  | .current c =>
      let del := RedisManager.delete_user st.sessions session_id
        (RedisManager.deleteUserInactiveHash c)
      if del.1 then
        let s2 := disposeHookWrite cfg c del.2 session_id hookWrite
        let s3 := RedisManager.finished_dispose s2 session_id
        let t1 := stopUnfinished st.tasks session_id
        if RedisManager.get_unfinished_tasks t1 session_id ≠ [] then
          ⟨.blocked, ⟨s3, t1⟩, cfg.hasOnDispose⟩
        else
          let t2 := RedisManager.clean_session_tasks t1 session_id
          let s4 := RedisManager.report_session_deleted s3 session_id
          ⟨.ok, ⟨s4, t2⟩, cfg.hasOnDispose⟩
      else
        if waiting && ! RedisManager.is_session_deleted del.2 session_id then
          ⟨.blocked, ⟨del.2, st.tasks⟩, false⟩
        else ⟨.ok, ⟨del.2, st.tasks⟩, false⟩

/-- Run a sequence of `dispose_user` calls for one session id, each with
its own `waiting` flag and hook data write, threading the state. -/
def disposeSeq (cfg : WebLabCfg) (st : LabState) (session_id : String) :
    List (Bool × Option String) → List DisposeOutcome
  | [] => []
  | p :: ps =>
      let o := dispose_user cfg st session_id p.1 p.2
      o :: disposeSeq cfg o.state session_id ps

/-- Number of `on_dispose` invocations in a sequence of outcomes. -/
def hookCount (os : List DisposeOutcome) : Nat :=
  (os.filter (fun o => o.hookRan)).length

/-- Did a Python call raise `AlreadyRunningError`? -/
def isAlreadyRunningErr {α : Type} : Except PyErr α → Bool
  | .error (.alreadyRunning _) => true
  | _ => false

/-- Did a Python call raise `ValueError`? -/
def isValueErr {α : Type} : Except PyErr α → Bool
  | .error (.valueErr _) => true
  | _ => false

/-- Results of `n` successive `start_task` claim attempts on the same
task id, threading the store. -/
def startTaskResults (ts : TaskStore) (task_id : String) : Nat → List (Option TaskParams)
  | 0 => []
  | n + 1 =>
      let r := RedisManager.start_task ts task_id
      r.1 :: startTaskResults r.2 task_id n

/-- A stored task record is claimable: it exists, carries no `running`
claim marker, and still has its `name` field. -/
def Claimable (ts : TaskStore) (task_id : String) : Prop :=
  ∃ h, ts.tasks task_id = some h ∧ h.running = false ∧ h.name ≠ none

/-- Well-formedness of a stored task hash.  Every hash the library itself
stores satisfies it: the JSON-carrying fields are present, a finished
record was claimed first (the worker only finishes tasks it claimed), and
`result`/`error` are non-null only on a finished record and never both. -/
def TaskWF (h : TaskHash) : Prop :=
  h.error ≠ none ∧ h.result ≠ none ∧ h.data ≠ none ∧ h.stopping ≠ none ∧
  (h.finished = some "true" → h.running = true) ∧
  (∀ v, h.result = some (some v) → h.finished = some "true" ∧ h.error = some none) ∧
  (∀ e, h.error = some (some e) → h.finished = some "true" ∧ h.result = some none)

/-- Store-wide task well-formedness. -/
def StoreWF (ts : TaskStore) : Prop :=
  ∀ tid h, ts.tasks tid = some h → TaskWF h

/-- A completely empty backend state. -/
def emptyLab : LabState :=
  ⟨⟨fun _ => none, fun _ => none, fun _ => false⟩, ⟨fun _ => none, fun _ => []⟩⟩

/-- The default configuration: `timeout = 15`, `poll_interval = 5`, an
`on_dispose` hook registered. -/
def cfg0 : WebLabCfg := ⟨15, 5, true⟩

/-- A store with one live session `"s"`: `max_date = 2`, polled at time
`0`, not exited.  At `now = 0` its `time_left` is `2`. -/
def liveStore : SessionStore :=
  { active := fun sid =>
      if sid = "s" then some ⟨some 2, some 0, some "{}", some false, none⟩
      else none,
    inactive := fun _ => none,
    marker := fun sid => sid = "s" }

/-- A store with one expired session `"s"` still disposing. -/
def disposingStore : SessionStore :=
  { active := fun _ => none,
    inactive := fun sid =>
      if sid = "s" then some ⟨some 1, none, some "{}", none, some true⟩
      else none,
    marker := fun sid => sid = "s" }

/-- A task store with one submitted task `"t"` of session `"s"`. -/
def submittedTasks : TaskStore :=
  { tasks := fun tid =>
      if tid = "t" then some (newTaskHash "f" "s" "[]" "{}") else none,
    sessionTasks := fun sid => if sid = "s" then ["t"] else [] }

/-- C5: assigning to an `ExpiredUser`'s `.data` or calling its
`update_data` raises `NotImplementedError` and leaves the user object
unchanged, and every read or write access to an `AnonymousUser`'s `.data`
mapping (indexing, get, update, iteration, length, ...) raises
`TypeError`; no mutation attempt on an Expired or Anonymous user's data
silently succeeds as a no-op. -/
theorem c5_expired_anonymous_data_mutation_raises :
    (∀ (u : ExpiredUser) (v : String),
        (ExpiredUser.trySetData u v).1 =
          .error (.notImplementedErr "You can't change data on an ExpiredUser") ∧
        (ExpiredUser.trySetData u v).2 = u) ∧
    (∀ (u : ExpiredUser) (v : Option String),
        (ExpiredUser.update_data u v).1 =
          .error (.notImplementedErr "You can't change data on an ExpiredUser") ∧
        (ExpiredUser.update_data u v).2 = u) ∧
    (∀ k, AnonymousDataImmutableDict.getitem k =
        .error (.typeErr "Anonymous user contains no valid data")) ∧
    (∀ k v, AnonymousDataImmutableDict.setitem k v =
        .error (.typeErr "Anonymous user contains no valid data")) ∧
    (∀ k, AnonymousDataImmutableDict.delitem k =
        .error (.typeErr "Anonymous user contains no valid data")) ∧
    AnonymousDataImmutableDict.iterate =
        .error (.typeErr "Anonymous user contains no valid data") ∧
    AnonymousDataImmutableDict.length =
        .error (.typeErr "Anonymous user contains no valid data") ∧
    (∀ k, AnonymousDataImmutableDict.get k =
        .error (.typeErr "Anonymous user contains no valid data")) ∧
    (∀ o, AnonymousDataImmutableDict.update o =
        .error (.typeErr "Anonymous user contains no valid data")) ∧
    (∀ k, AnonymousDataImmutableDict.pop k =
        .error (.typeErr "Anonymous user contains no valid data")) ∧
    AnonymousDataImmutableDict.clear =
        .error (.typeErr "Anonymous user contains no valid data") ∧
    AnonymousDataImmutableDict.keys =
        .error (.typeErr "Anonymous user contains no valid data") ∧
    AnonymousDataImmutableDict.items =
        .error (.typeErr "Anonymous user contains no valid data") :=
  ⟨fun _ _ => ⟨rfl, rfl⟩, fun _ _ => ⟨rfl, rfl⟩, fun _ => rfl, fun _ _ => rfl,
   fun _ => rfl, rfl, rfl, fun _ => rfl, fun _ => rfl, fun _ => rfl, rfl, rfl, rfl⟩

/-- C7: a direct call of a `unique='global'` task raises
`AlreadyRunningError` (leaving the running invocation's lock in place)
while the lock is held; an uncontended call returns the wrapped
function's outcome — normal return or raised exception alike — with the
lock released afterwards; and a further invocation once the previous one
finished acquires the lock and runs. -/
theorem c7_global_unique_task_lock {α : Type} (name : String)
    (fr fr2 : Except PyErr α) (st : LockStore) :
    (st name = true →
      isAlreadyRunningErr (taskWrapperCallGlobal name fr st).1 = true ∧
      ∀ k, (taskWrapperCallGlobal name fr st).2 k = st k) ∧
    (st name = false →
      (taskWrapperCallGlobal name fr st).1 = fr ∧
      (taskWrapperCallGlobal name fr st).2 name = false) ∧
    (st name = false →
      (taskWrapperCallGlobal name fr2 ((taskWrapperCallGlobal name fr st).2)).1 = fr2) := by
  refine ⟨fun h => ⟨?_, ?_⟩, fun h => ⟨?_, ?_⟩, fun h => ?_⟩ <;>
    simp [taskWrapperCallGlobal, RedisManager.lock_global_unique_task,
          RedisManager.unlock_global_unique_task, h, isAlreadyRunningErr]

/-- C7 witness: with the lock held the call raises `AlreadyRunningError`;
from a free lock the wrapped outcome is returned and a subsequent call
runs again. -/
theorem c7_global_unique_task_lock_witness :
    isAlreadyRunningErr
      (taskWrapperCallGlobal "f" (Except.ok 0) (fun _ => true)).1 = true ∧
    (taskWrapperCallGlobal "f" (Except.error (.runtimeErr "boom") : Except PyErr ℕ)
        (fun _ => false)).1 = Except.error (.runtimeErr "boom") ∧
    (taskWrapperCallGlobal "f" (Except.ok 1)
        ((taskWrapperCallGlobal "f" (Except.error (.runtimeErr "boom") : Except PyErr ℕ)
            (fun _ => false)).2)).1 = Except.ok 1 :=
  ⟨((c7_global_unique_task_lock "f" (Except.ok 0) (Except.ok 0) (fun _ => true)).1 rfl).1,
   ((c7_global_unique_task_lock "f" (Except.error (.runtimeErr "boom"))
      (Except.ok 1) (fun _ => false)).2.1 rfl).1,
   (c7_global_unique_task_lock "f" (Except.error (.runtimeErr "boom"))
      (Except.ok 1) (fun _ => false)).2.2 rfl⟩

/-- C8: calling `join` on the task that is currently executing — the
thread-local current task has the same task id — raises `RuntimeError`
immediately, for every combination of `timeout` and `error_on_timeout`
and independently of the polling loop's inputs (including zero fuel, so
the wait loop is never entered). -/
theorem c8_join_self_deadlock (task_id : String) (finishedAt : Nat → Bool)
    (elapsedAt : Nat → ℚ) (timeout : Option ℚ) (error_on_timeout : Bool)
    (fuel : Nat) :
    WebLabTask.join (some task_id) task_id finishedAt elapsedAt timeout
        error_on_timeout fuel =
      some (.error (.runtimeErr
        "Deadlock detected: you're calling join from the task itself")) := by
  simp [WebLabTask.join]

/-- C3 counterexample: with the default configuration
(`poll_interval = 5`, `timeout = 15`), a session whose user is a live
`CurrentUser` — not an `ExpiredUser` — with `2` seconds left also makes
the status query return `2` (`min(poll_interval, int(time_left))`), so
`2` is *not* returned exactly when the user is a disposing
`ExpiredUser`. -/
theorem c3_status_time_two_counterexample :
    RedisManager.get_user liveStore "s" =
      .current ⟨"s", 2, 0, false, "{}"⟩ ∧
    status_time cfg0 0 liveStore "s" = 2 := by
  refine ⟨by decide, ?_⟩
  norm_num [status_time, status_time_user, RedisManager.get_user,
    RedisManager.get_expired_user, liveStore, cfg0, SessionStore.activeMaxDate,
    SessionStore.inactiveMaxDate, CurrentUser.time_left,
    CurrentUser.time_without_polling]

/-- C3 (amended): the status query returns `2` *whenever* the user is an
`ExpiredUser` whose `disposing_resources` flag is set (a live user whose
capped poll answer is `2` also yields it); `-1` when the user is
anonymous, expired with disposal finished, exited, past the configured
positive timeout without polling, or out of time; otherwise
`min(poll_interval, int(time_left))`. -/
theorem c3_status_time_amended (cfg : WebLabCfg) (now : ℚ) (st : SessionStore)
    (sid : String) :
    (∀ e, RedisManager.get_user st sid = .expired e →
        e.disposing_resources = true → status_time cfg now st sid = 2) ∧
    (RedisManager.get_user st sid = .anonymous →
        status_time cfg now st sid = -1) ∧
    (∀ e, RedisManager.get_user st sid = .expired e →
        e.disposing_resources = false → status_time cfg now st sid = -1) ∧
    (∀ c, RedisManager.get_user st sid = .current c → c.exited = true →
        status_time cfg now st sid = -1) ∧
    (∀ c, RedisManager.get_user st sid = .current c → 0 < cfg.timeout →
        cfg.timeout ≤ c.time_without_polling now →
        status_time cfg now st sid = -1) ∧
    (∀ c, RedisManager.get_user st sid = .current c → c.time_left now ≤ 0 →
        status_time cfg now st sid = -1) ∧
    (∀ c, RedisManager.get_user st sid = .current c → c.exited = false →
        ¬ (0 < cfg.timeout ∧ cfg.timeout ≤ c.time_without_polling now) →
        0 < c.time_left now →
        status_time cfg now st sid = min cfg.poll_interval ⌊c.time_left now⌋) := by
  refine ⟨fun e he hd => ?_, fun ha => ?_, fun e he hd => ?_, fun c hc hx => ?_,
          fun c hc ht hle => ?_, fun c hc hl => ?_, fun c hc hx ht hl => ?_⟩
  · simp [status_time, he, status_time_user, hd]
  · simp [status_time, ha, status_time_user]
  · simp [status_time, he, status_time_user, hd]
  · simp [status_time, hc, status_time_user, hx]
  · simp only [status_time, hc, status_time_user]
    split_ifs with h1 h2 h3
    · rfl
    · rfl
    · rfl
    · exact absurd ⟨ht, hle⟩ h2
  · simp only [status_time, hc, status_time_user]
    split_ifs with h1 h2 <;> rfl
  · simp only [status_time, hc, status_time_user]
    split_ifs with h1 h2
    · exact absurd h1 (by simp [hx])
    · exact absurd h2 (by linarith)
    · rfl

/-- C3 witness for the amended theorem: an expired user still disposing
gets the retry code `2`; an exited user gets `-1`. -/
theorem c3_status_time_amended_witness :
    status_time cfg0 0 disposingStore "s" = 2 :=
  (c3_status_time_amended cfg0 0 disposingStore "s").1
    ⟨"s", 1, "{}", true⟩ (by decide) rfl

/-- Reading back the key just written. -/
theorem updKey_same {α : Type} (m : String → Option α) (k : String) (v : Option α) :
    updKey m k v k = v := by
  simp [updKey]

/-- Reading another key after a write. -/
theorem updKey_other {α : Type} (m : String → Option α) (k : String)
    (v : Option α) (q : String) (hq : q ≠ k) : updKey m k v q = m q := by
  simp [updKey, hq]

/-- `get_user` answers Anonymous exactly when both the active and the
inactive hash lack a `max_date`. -/
theorem get_user_anonymous_iff (st : SessionStore) (sid : String) :
    RedisManager.get_user st sid = .anonymous ↔
      st.activeMaxDate sid = none ∧ st.inactiveMaxDate sid = none := by
  unfold RedisManager.get_user RedisManager.get_expired_user
  rcases ha : st.activeMaxDate sid with _ | md
  · rcases hi : st.inactiveMaxDate sid with _ | md2 <;> simp [ha, hi]
  · simp [ha]

/-- `poll` on a session whose active `max_date` is gone deletes the key
it partially re-created. -/
theorem poll_observed_deleted (st : SessionStore) (sid : String) (now : ℚ)
    (ha : st.activeMaxDate sid = none) :
    (RedisManager.poll st sid now).active sid = none := by
  simp [RedisManager.poll, ha, updKey]

/-- `poll` leaves the inactive hashes and markers untouched. -/
theorem poll_inactive_marker_eq (st : SessionStore) (sid : String) (now : ℚ) :
    (RedisManager.poll st sid now).inactive = st.inactive ∧
    (RedisManager.poll st sid now).marker = st.marker := by
  simp only [RedisManager.poll]
  split_ifs <;> exact ⟨rfl, rfl⟩

/-- `poll` on a live record only updates its `last_poll`. -/
theorem poll_live (st : SessionStore) (sid : String) (now : ℚ)
    (h : SessionHash) (hh : st.active sid = some h) (hmd : h.max_date ≠ none) :
    (RedisManager.poll st sid now).active sid =
      some { h with last_poll := some now } := by
  simp [RedisManager.poll, SessionStore.activeMaxDate, hh, hmd, updKey]

/-- `update_data` on a session whose active `max_date` is gone deletes
the active key it re-created. -/
theorem update_data_active_observed_deleted (st : SessionStore) (sid : String)
    (d : String) (ha : st.activeMaxDate sid = none) :
    (RedisManager.update_data st sid d).active sid = none := by
  simp only [RedisManager.update_data]
  split_ifs <;> simp_all [updKey]

/-- `update_data` on a session whose inactive `max_date` is gone deletes
the inactive key it re-created. -/
theorem update_data_inactive_observed_deleted (st : SessionStore) (sid : String)
    (d : String) (hi : st.inactiveMaxDate sid = none) :
    (RedisManager.update_data st sid d).inactive sid = none := by
  simp only [RedisManager.update_data]
  split_ifs <;> simp_all [updKey]

/-- `update_data` on a live active record only rewrites its `data`. -/
theorem update_data_active_live (st : SessionStore) (sid : String) (d : String)
    (h : SessionHash) (hh : st.active sid = some h) (hmd : h.max_date ≠ none) :
    (RedisManager.update_data st sid d).active sid =
      some { h with data := some d } := by
  have ha : ¬ st.activeMaxDate sid = none := by
    simp [SessionStore.activeMaxDate, hh, hmd]
  simp only [RedisManager.update_data]
  split_ifs <;> simp_all [updKey]

/-- `update_data` on a live inactive record only rewrites its `data`. -/
theorem update_data_inactive_live (st : SessionStore) (sid : String) (d : String)
    (h : SessionHash) (hh : st.inactive sid = some h) (hmd : h.max_date ≠ none) :
    (RedisManager.update_data st sid d).inactive sid =
      some { h with data := some d } := by
  have hi : ¬ st.inactiveMaxDate sid = none := by
    simp [SessionStore.inactiveMaxDate, hh, hmd]
  simp only [RedisManager.update_data]
  split_ifs <;> simp_all [updKey]

/-- C6: deleted sessions are never resurrected by the read-then-write
round trips.  `poll` updates `last_poll` on a live record, but deletes
the partially re-created key when it observed the active `max_date`
absent; `update_data` rewrites `data` on whichever record is live and
deletes any active or inactive key it re-created after observing the
record gone; and a session observed as Anonymous stays Anonymous through
either operation. -/
theorem c6_deleted_sessions_stay_deleted (st : SessionStore) (sid : String)
    (now : ℚ) (d : String) :
    (st.activeMaxDate sid = none →
        (RedisManager.poll st sid now).active sid = none) ∧
    (∀ h, st.active sid = some h → h.max_date ≠ none →
        (RedisManager.poll st sid now).active sid =
          some { h with last_poll := some now }) ∧
    (st.activeMaxDate sid = none →
        (RedisManager.update_data st sid d).active sid = none) ∧
    (st.inactiveMaxDate sid = none →
        (RedisManager.update_data st sid d).inactive sid = none) ∧
    (∀ h, st.active sid = some h → h.max_date ≠ none →
        (RedisManager.update_data st sid d).active sid =
          some { h with data := some d }) ∧
    (∀ h, st.inactive sid = some h → h.max_date ≠ none →
        (RedisManager.update_data st sid d).inactive sid =
          some { h with data := some d }) ∧
    (RedisManager.get_user st sid = .anonymous →
        RedisManager.get_user (RedisManager.poll st sid now) sid = .anonymous ∧
        RedisManager.get_user (RedisManager.update_data st sid d) sid = .anonymous) := by
  refine ⟨poll_observed_deleted st sid now,
          fun h hh hmd => poll_live st sid now h hh hmd,
          update_data_active_observed_deleted st sid d,
          update_data_inactive_observed_deleted st sid d,
          fun h hh hmd => update_data_active_live st sid d h hh hmd,
          fun h hh hmd => update_data_inactive_live st sid d h hh hmd,
          fun han => ?_⟩
  rcases (get_user_anonymous_iff st sid).1 han with ⟨ha, hi⟩
  constructor
  · rw [get_user_anonymous_iff]
    refine ⟨?_, ?_⟩
    · simp [SessionStore.activeMaxDate, poll_observed_deleted st sid now ha]
    · rw [SessionStore.inactiveMaxDate, (poll_inactive_marker_eq st sid now).1]
      exact hi
  · rw [get_user_anonymous_iff]
    refine ⟨?_, ?_⟩
    · simp [SessionStore.activeMaxDate,
            update_data_active_observed_deleted st sid d ha]
    · simp [SessionStore.inactiveMaxDate,
            update_data_inactive_observed_deleted st sid d hi]

/-- C6 witness: a fully deleted session stays Anonymous through a `poll`
and through an `update_data`. -/
theorem c6_deleted_sessions_stay_deleted_witness :
    RedisManager.get_user
        (RedisManager.poll emptyLab.sessions "s" 7) "s" = .anonymous ∧
    RedisManager.get_user
        (RedisManager.update_data emptyLab.sessions "s" "{}") "s" = .anonymous :=
  (c6_deleted_sessions_stay_deleted emptyLab.sessions "s" 7 "{}").2.2.2.2.2.2 rfl

/-- A claim attempt on a non-claimable record yields `None` and leaves
the record non-claimable. -/
theorem start_task_not_claimable (ts : TaskStore) (tid : String)
    (h : ¬ Claimable ts tid) :
    (RedisManager.start_task ts tid).1 = none ∧
    ¬ Claimable (RedisManager.start_task ts tid).2 tid := by
  rcases hh : ts.tasks tid with _ | h0
  · simp [RedisManager.start_task, hh, emptyTaskHash, TaskStore.setTask,
          Claimable, updKey]
  · rcases hr : h0.running with _ | _
    · rcases hn : h0.name with _ | nm
      · simp [RedisManager.start_task, hh, hr, hn, TaskStore.setTask,
              Claimable, updKey]
      · exact absurd ⟨h0, hh, hr, by simp [hn]⟩ h
    · constructor
      · simp [RedisManager.start_task, hh, hr]
      · simp [RedisManager.start_task, hh, hr, TaskStore.setTask,
              Claimable, updKey]

/-- After any claim attempt the record is never claimable again. -/
theorem start_task_post_not_claimable (ts : TaskStore) (tid : String) :
    ¬ Claimable (RedisManager.start_task ts tid).2 tid := by
  rcases hh : ts.tasks tid with _ | h0
  · simp [RedisManager.start_task, hh, emptyTaskHash, TaskStore.setTask,
          Claimable, updKey]
  · rcases hr : h0.running with _ | _
    · rcases hn : h0.name with _ | nm
      · simp [RedisManager.start_task, hh, hr, hn, TaskStore.setTask,
              Claimable, updKey]
      · simp [RedisManager.start_task, hh, hr, hn, TaskStore.setTask,
              Claimable, updKey]
    · simp [RedisManager.start_task, hh, hr, TaskStore.setTask,
            Claimable, updKey]

/-- The winning claim returns exactly the stored parameters and marks the
record running. -/
theorem start_task_claimable (ts : TaskStore) (tid : String) (h : TaskHash)
    (nm : String) (hh : ts.tasks tid = some h) (hr : h.running = false)
    (hn : h.name = some nm) :
    (RedisManager.start_task ts tid).1 =
      some ⟨nm, h.args, h.kwargs, h.session_id⟩ ∧
    (RedisManager.start_task ts tid).2.tasks tid =
      some { h with running := true } := by
  simp [RedisManager.start_task, hh, hr, hn, TaskStore.setTask, updKey]

/-- From a non-claimable record every sequence of claims yields `None`. -/
theorem startTaskResults_not_claimable (n : Nat) :
    ∀ ts tid, ¬ Claimable ts tid →
      startTaskResults ts tid n = List.replicate n none := by
  induction n with
  | zero => intro ts tid _; rfl
  | succ n ih =>
      intro ts tid h
      rcases start_task_not_claimable ts tid h with ⟨h1, h2⟩
      simp [startTaskResults, h1, ih _ _ h2, List.replicate]

/-- C2: `start_task` grants the stored task parameters (name, args,
kwargs, session id) to at most one claimer: over any number of
sequential claim attempts at most one succeeds; when the record is
freshly submitted the first attempt receives exactly the stored
parameters and every later attempt `None`; and on a record that no
longer exists every attempt receives `None`. -/
theorem c2_start_task_single_claim (ts : TaskStore) (tid : String) (n : Nat) :
    ((startTaskResults ts tid n).countP (fun r => r.isSome) ≤ 1) ∧
    (∀ h nm, ts.tasks tid = some h → h.running = false → h.name = some nm →
        ∀ k, startTaskResults ts tid (k + 1) =
          some ⟨nm, h.args, h.kwargs, h.session_id⟩ :: List.replicate k none) ∧
    (ts.tasks tid = none → startTaskResults ts tid n = List.replicate n none) := by
  refine ⟨?_, fun h nm hh hr hn k => ?_, fun hh => ?_⟩
  · rcases n with _ | n
    · simp [startTaskResults]
    · have hrest := startTaskResults_not_claimable n
        (RedisManager.start_task ts tid).2 tid (start_task_post_not_claimable ts tid)
      have h0 : List.countP (fun r => Option.isSome r)
          (List.replicate n (none : Option TaskParams)) = 0 :=
        List.countP_eq_zero.mpr (fun a ha => by
          rw [List.eq_of_mem_replicate ha]; simp)
      simp only [startTaskResults, hrest, List.countP_cons, h0]
      split_ifs <;> simp
  · have hfirst := start_task_claimable ts tid h nm hh hr hn
    have hrest := startTaskResults_not_claimable k
      (RedisManager.start_task ts tid).2 tid (start_task_post_not_claimable ts tid)
    simp [startTaskResults, hfirst.1, hrest]
  · exact startTaskResults_not_claimable n ts tid (by simp [Claimable, hh])

/-- C2 witness: on a freshly submitted task of session `"s"` the first of
three claim attempts receives the parameters and the two later attempts
receive `None`. -/
theorem c2_start_task_single_claim_witness :
    startTaskResults submittedTasks "t" 3 =
      some ⟨"f", some "[]", some "{}", some "s"⟩ :: List.replicate 2 none :=
  (c2_start_task_single_claim submittedTasks "t" 3).2.1
    (newTaskHash "f" "s" "[]" "{}") "f" (by decide) rfl rfl 2

/-- No base-64 alphabet character is the `=` padding character. -/
theorem b64Char_ne_pad (i : Nat) : b64Char i ≠ '=' := by
  unfold b64Char
  rcases hc : b64Alphabet[i]? with _ | c
  · simp [List.getD_eq_getElem?_getD, hc]
  · have hmem : c ∈ b64Alphabet := List.getElem?_mem hc
    have hne : '=' ∉ b64Alphabet := by decide
    simp only [List.getD_eq_getElem?_getD, hc, Option.getD_some]
    exact fun he => hne (he ▸ hmem)

/-- Length of a base-64 encoding after the padding is stripped. -/
theorem b64Encode_nopad_length (bs : List Nat) :
    ((b64Encode bs).filter (fun c => !decide (c = '='))).length =
      (4 * bs.length + 2) / 3 := by
  induction bs using b64Encode.induct with
  | case1 b1 b2 b3 rest ih =>
      simp [b64Encode, List.filter_cons, b64Char_ne_pad, ih]
      omega
  | case2 b1 b2 =>
      simp [b64Encode, List.filter_cons, b64Char_ne_pad]
  | case3 b1 =>
      simp [b64Encode, List.filter_cons, b64Char_ne_pad]
  | case4 =>
      simp [b64Encode]

/-- `create_token` on `n` random bytes yields `(4n + 2) / 3` characters:
43 for the default 32-byte size. -/
theorem create_token_length (bs : List Nat) :
    (create_token bs).length = (4 * bs.length + 2) / 3 := by
  unfold create_token
  simp [String.length, b64Encode_nopad_length]

/-- C9 counterexample: session ids and task ids are minted by the same
`create_token()` with the same default 32-byte size, so their lengths are
*equal* (both 43), not distinct. -/
theorem c9_equal_token_lengths_counterexample :
    (start_request_session_id (List.replicate 32 0)).length = 43 ∧
    (new_task_task_id (List.replicate 32 1)).length = 43 ∧
    (new_task_task_id (List.replicate 32 1)).length =
      (start_request_session_id (List.replicate 32 0)).length := by
  have hs : (start_request_session_id (List.replicate 32 0)).length = 43 := by
    rw [start_request_session_id, create_token_length]; simp
  have ht : (new_task_task_id (List.replicate 32 1)).length = 43 := by
    rw [new_task_task_id, create_token_length]; simp
  exact ⟨hs, ht, by rw [hs, ht]⟩

/-- C9 (amended): task ids and session ids are both default
`create_token()` tokens of the *same* length 43; the length-based
disambiguation in the code distinguishes task ids from registered task
*function names* (whose lengths may not equal the token length, enforced
by `_TaskWrapper.__init__` at wrap time), not from session ids. -/
theorem c9_token_lengths_amended (sb tb : List Nat) (hs : sb.length = 32)
    (ht : tb.length = 32) :
    (start_request_session_id sb).length = 43 ∧
    (new_task_task_id tb).length = 43 ∧
    (new_task_task_id tb).length = (start_request_session_id sb).length ∧
    (∀ name : String, name.length = (create_token tb).length →
        isValueErr (taskWrapperInitCheck name tb) = true) := by
  have h1 : (start_request_session_id sb).length = 43 := by
    rw [start_request_session_id, create_token_length, hs]
  have h2 : (new_task_task_id tb).length = 43 := by
    rw [new_task_task_id, create_token_length, ht]
  refine ⟨h1, h2, by rw [h1, h2], fun name hn => ?_⟩
  simp [taskWrapperInitCheck, hn, isValueErr]

/-- C9 witness for the amended theorem, at concrete 32-byte inputs. -/
theorem c9_token_lengths_amended_witness :
    (start_request_session_id (List.replicate 32 2)).length = 43 ∧
    (new_task_task_id (List.replicate 32 3)).length = 43 :=
  ⟨(c9_token_lengths_amended (List.replicate 32 2) (List.replicate 32 3)
      (by simp) (by simp)).1,
   (c9_token_lengths_amended (List.replicate 32 2) (List.replicate 32 3)
      (by simp) (by simp)).2.1⟩

/-- C10: wrapping a task function whose `__name__` has exactly the length
of a freshly generated default token — always 43 characters for the
32-byte default — raises `ValueError` at registration time; any other
name length passes the check. -/
theorem c10_task_name_length_check (name : String) (bytes : List Nat)
    (hb : bytes.length = 32) :
    (name.length = 43 → isValueErr (taskWrapperInitCheck name bytes) = true) ∧
    (name.length ≠ 43 → taskWrapperInitCheck name bytes = .ok ()) := by
  have hlen : (create_token bytes).length = 43 := by
    rw [create_token_length, hb]
  constructor <;> intro h <;> simp [taskWrapperInitCheck, hlen, h, isValueErr]

/-- C10 witness: a 43-character function name is rejected, a short one is
accepted. -/
theorem c10_task_name_length_check_witness :
    isValueErr (taskWrapperInitCheck
      "aaaaaaaaaaaaaaaaaaaaaaaaaaaaaaaaaaaaaaaaaaa" (List.replicate 32 0)) = true ∧
    taskWrapperInitCheck "f" (List.replicate 32 0) = .ok () :=
  ⟨(c10_task_name_length_check "aaaaaaaaaaaaaaaaaaaaaaaaaaaaaaaaaaaaaaaaaaa"
      (List.replicate 32 0) (by simp)).1 (by decide),
   (c10_task_name_length_check "f" (List.replicate 32 0) (by simp)).2 (by decide)⟩

/-- The hash written by `new_task` is well-formed. -/
theorem taskWF_newTaskHash (name session_id args kwargs : String) :
    TaskWF (newTaskHash name session_id args kwargs) := by
  simp [TaskWF, newTaskHash]

/-- `new_task` preserves store-wide task well-formedness. -/
theorem storeWF_new_task (ts : TaskStore) (sid tid name args kwargs : String)
    (hwf : StoreWF ts) :
    StoreWF (RedisManager.new_task ts sid tid name args kwargs) := by
  intro tid' h' hh
  simp only [RedisManager.new_task, updKey] at hh
  by_cases he : tid' = tid
  · simp only [he, if_pos rfl] at hh
    cases hh
    exact taskWF_newTaskHash name sid args kwargs
  · rw [if_neg he] at hh
    exact hwf tid' h' hh

/-- `start_task` preserves store-wide task well-formedness. -/
theorem storeWF_start_task (ts : TaskStore) (tid : String) (hwf : StoreWF ts) :
    StoreWF (RedisManager.start_task ts tid).2 := by
  intro tid' h' hh
  by_cases he : tid' = tid
  · subst he
    rcases h0 : ts.tasks tid' with _ | h
    · simp [RedisManager.start_task, h0, TaskStore.setTask, updKey,
            emptyTaskHash] at hh
    · obtain ⟨w1, w2, w3, w4, w5, w6, w7⟩ := hwf tid' h h0
      rcases hr : h.running with _ | _ <;> rcases hn : h.name with _ | nm <;>
        simp [RedisManager.start_task, h0, TaskStore.setTask, updKey, hr, hn] at hh <;>
        subst hh <;>
        exact ⟨w1, w2, w3, w4, fun _ => rfl, w6, w7⟩
  · have hsame : (RedisManager.start_task ts tid).2.tasks tid' = ts.tasks tid' := by
      rcases h0 : ts.tasks tid with _ | h
      · simp [RedisManager.start_task, h0, TaskStore.setTask, updKey, he,
              emptyTaskHash]
      · rcases hr : h.running with _ | _ <;> rcases hn : h.name with _ | nm <;>
          simp [RedisManager.start_task, h0, TaskStore.setTask, updKey, he, hr, hn]
    rw [hsame] at hh
    exact hwf tid' h' hh

/-- `finish_task`, called as the worker loop calls it — on a claimed
record and with at most one of `result`/`error` non-null — preserves
store-wide task well-formedness. -/
theorem storeWF_finish_task (ts ts' : TaskStore) (tid : String)
    (res : Option PyVal) (err : Option ErrObj) (hwf : StoreWF ts)
    (hrun : ∀ h, ts.tasks tid = some h → h.running = true)
    (hone : err = none ∨ res = none)
    (hok : RedisManager.finish_task ts tid res err = .ok ts') :
    StoreWF ts' := by
  by_cases hg : (err.isSome && resTruthy res) = true
  · simp [RedisManager.finish_task, hg] at hok
  · rcases h0 : ts.tasks tid with _ | h
    · simp [RedisManager.finish_task, hg, h0, emptyTaskHash,
            TaskStore.setTask] at hok
      subst hok
      intro tid' h' hh
      simp only [updKey] at hh
      by_cases he : tid' = tid
      · simp [he] at hh
      · simp only [if_neg he] at hh
        exact hwf tid' h' hh
    · rcases hs : h.session_id with _ | sid
      · simp [RedisManager.finish_task, hg, h0, hs, TaskStore.setTask] at hok
        subst hok
        intro tid' h' hh
        simp only [updKey] at hh
        by_cases he : tid' = tid
        · simp [he] at hh
        · simp only [if_neg he] at hh
          exact hwf tid' h' hh
      · simp [RedisManager.finish_task, hg, h0, hs, TaskStore.setTask] at hok
        subst hok
        intro tid' h' hh
        simp only [updKey] at hh
        by_cases he : tid' = tid
        · subst he
          rw [if_pos rfl] at hh
          obtain ⟨w1, w2, w3, w4, w5, w6, w7⟩ := hwf tid' h h0
          cases hh
          refine ⟨by simp, by simp, w3, w4, fun _ => hrun h h0, ?_, ?_⟩
          · intro v hv
            simp only [Option.some.injEq] at hv
            rcases hone with h1 | h1
            · exact ⟨rfl, by simp [h1]⟩
            · rw [h1] at hv
              cases hv
          · intro e hev
            simp only [Option.some.injEq] at hev
            rcases hone with h1 | h1
            · rw [h1] at hev
              cases hev
            · exact ⟨rfl, by simp [h1]⟩
        · rw [if_neg he] at hh
          exact hwf tid' h' hh


/-- `update_task_data` preserves store-wide task well-formedness. -/
theorem storeWF_update_task_data (ts : TaskStore) (tid new_data : String)
    (hwf : StoreWF ts) :
    StoreWF (RedisManager.update_task_data ts tid new_data) := by
  intro tid' h' hh
  by_cases he : tid' = tid
  · subst he
    rcases h0 : ts.tasks tid' with _ | h
    · simp [RedisManager.update_task_data, h0, TaskStore.setTask, updKey,
            emptyTaskHash] at hh
    · obtain ⟨w1, w2, w3, w4, w5, w6, w7⟩ := hwf tid' h h0
      rcases hn : h.name with _ | nm <;>
        simp [RedisManager.update_task_data, h0, TaskStore.setTask, updKey, hn] at hh
      subst hh
      exact ⟨w1, w2, by simp, w4, w5, w6, w7⟩
  · have hsame : (RedisManager.update_task_data ts tid new_data).tasks tid' =
        ts.tasks tid' := by
      rcases h0 : ts.tasks tid with _ | h
      · simp [RedisManager.update_task_data, h0, TaskStore.setTask, updKey, he,
              emptyTaskHash]
      · rcases hn : h.name with _ | nm <;>
          simp [RedisManager.update_task_data, h0, TaskStore.setTask, updKey,
                he, hn]
    rw [hsame] at hh
    exact hwf tid' h' hh

/-- `request_stop_task` preserves store-wide task well-formedness. -/
theorem storeWF_request_stop_task (ts : TaskStore) (tid : String)
    (hwf : StoreWF ts) :
    StoreWF (RedisManager.request_stop_task ts tid) := by
  intro tid' h' hh
  by_cases he : tid' = tid
  · subst he
    rcases h0 : ts.tasks tid' with _ | h
    · simp [RedisManager.request_stop_task, h0, TaskStore.setTask, updKey,
            emptyTaskHash] at hh
    · obtain ⟨w1, w2, w3, w4, w5, w6, w7⟩ := hwf tid' h h0
      rcases hn : h.name with _ | nm <;>
        simp [RedisManager.request_stop_task, h0, TaskStore.setTask, updKey, hn] at hh
      subst hh
      exact ⟨w1, w2, w3, by simp, w5, w6, w7⟩
  · have hsame : (RedisManager.request_stop_task ts tid).tasks tid' =
        ts.tasks tid' := by
      rcases h0 : ts.tasks tid with _ | h
      · simp [RedisManager.request_stop_task, h0, TaskStore.setTask, updKey, he,
              emptyTaskHash]
      · rcases hn : h.name with _ | nm <;>
          simp [RedisManager.request_stop_task, h0, TaskStore.setTask, updKey,
                he, hn]
    rw [hsame] at hh
    exact hwf tid' h' hh

/-- `clean_session_tasks` preserves store-wide task well-formedness. -/
theorem storeWF_clean_session_tasks (ts : TaskStore) (sid : String)
    (hwf : StoreWF ts) :
    StoreWF (RedisManager.clean_session_tasks ts sid) := by
  intro tid' h' hh
  simp only [RedisManager.clean_session_tasks] at hh
  split_ifs at hh
  exact hwf tid' h' hh

/-- C4 counterexample: `finish_task` checks `error and result` by Python
truthiness, so supplying a non-null *falsy* result (the JSON number `0`)
together with a structured error raises no `ValueError`. -/
theorem c4_finish_task_truthiness_counterexample :
    (some (PyVal.mk false "0")).isSome = true ∧
    (some (ErrObj.mk "exception" "ZeroDivisionError" "division by zero")).isSome = true ∧
    isValueErr (RedisManager.finish_task submittedTasks "t"
      (some (PyVal.mk false "0"))
      (some (ErrObj.mk "exception" "ZeroDivisionError" "division by zero"))) = false :=
  ⟨rfl, rfl, rfl⟩

/-- C4 (amended): for every well-formed stored task record, `get_task`
derives status `submitted` exactly when the claim marker is absent,
`running` exactly when claimed but unfinished, `failed` exactly when
finished with a non-null error and `done` exactly when finished with a
null error; `result` is non-null only in status `done` and `error` only
in status `failed`.  `finish_task` raises `ValueError` exactly when a
non-null `error` and a *truthy* `result` are supplied (Python truthiness:
a non-null falsy result such as `0` together with an error raises
nothing). -/
theorem c4_task_status_amended (ts : TaskStore) (tid : String) (h : TaskHash)
    (sid : String) (hh : ts.tasks tid = some h) (hwf : TaskWF h)
    (hsid : h.session_id = some sid) :
    (∃ info, RedisManager.get_task ts tid = .ok (some info) ∧
        (info.status = "submitted" ↔ h.running = false) ∧
        (info.status = "running" ↔ (h.running = true ∧ h.finished ≠ some "true")) ∧
        (info.status = "failed" ↔ (h.finished = some "true" ∧ info.error ≠ none)) ∧
        (info.status = "done" ↔ (h.finished = some "true" ∧ info.error = none)) ∧
        (info.result ≠ none → info.status = "done") ∧
        (info.error ≠ none → info.status = "failed")) ∧
    (∀ (ts2 : TaskStore) (tid2 : String) (res : Option PyVal) (err : Option ErrObj),
        isValueErr (RedisManager.finish_task ts2 tid2 res err) =
          (err.isSome && resTruthy res)) := by
  obtain ⟨w1, w2, w3, w4, w5, w6, w7⟩ := hwf
  rcases he : h.error with _ | err
  · exact absurd he w1
  rcases hr : h.result with _ | res
  · exact absurd hr w2
  rcases hd : h.data with _ | dat
  · exact absurd hd w3
  rcases hst : h.stopping with _ | stp
  · exact absurd hst w4
  constructor
  · refine ⟨⟨tid, res, err,
      (if ! h.running then "submitted"
       else if h.finished = some "true" then
         (if err.isSome then "failed" else "done")
       else "running"), sid, h.name, dat, stp⟩,
      by simp [RedisManager.get_task, hh, hsid, he, hr, hd, hst],
      ?_, ?_, ?_, ?_, ?_, ?_⟩
    · rcases hrun : h.running with _ | _
      · simp
      · by_cases hfin : h.finished = some "true" <;> rcases err with _ | e <;>
          simp [hfin]
    · rcases hrun : h.running with _ | _
      · simp
      · by_cases hfin : h.finished = some "true" <;> rcases err with _ | e <;>
          simp [hfin]
    · rcases hrun : h.running with _ | _
      · simp only [Bool.not_false, if_true]
        constructor
        · intro hS
          exact absurd hS (by decide)
        · rintro ⟨hf, hne⟩
          exact absurd (w5 hf) (by simp [hrun])
      · by_cases hfin : h.finished = some "true" <;> rcases err with _ | e <;>
          simp [hfin]
    · rcases hrun : h.running with _ | _
      · simp only [Bool.not_false, if_true]
        constructor
        · intro hS
          exact absurd hS (by decide)
        · rintro ⟨hf, hne⟩
          exact absurd (w5 hf) (by simp [hrun])
      · by_cases hfin : h.finished = some "true" <;> rcases err with _ | e <;>
          simp [hfin]
    · intro hres
      rcases res with _ | v
      · exact absurd rfl hres
      · obtain ⟨hf, herrnull⟩ := w6 v hr
        have herr0 : err = none := by
          rw [he] at herrnull
          exact (Option.some.injEq _ _ ▸ herrnull : _)
        subst herr0
        simp [w5 hf, hf]
    · intro herr
      rcases err with _ | e
      · exact absurd rfl herr
      · obtain ⟨hf, _⟩ := w7 e he
        simp [w5 hf, hf]
  · intro ts2 tid2 res2 err2
    cases hB : (err2.isSome && resTruthy res2) with
    | true => simp [RedisManager.finish_task, hB, isValueErr]
    | false =>
        unfold RedisManager.finish_task
        rw [hB]
        simp only [Bool.false_eq_true, if_false]
        split_ifs <;> rfl


/-- C4 witness: a freshly created task record is well-formed and reported
as `submitted`. -/
theorem c4_task_status_amended_witness :
    ∃ info, RedisManager.get_task submittedTasks "t" = .ok (some info) ∧
      info.status = "submitted" := by
  obtain ⟨⟨info, hget, hiff, _⟩, _⟩ :=
    c4_task_status_amended submittedTasks "t" (newTaskHash "f" "s" "[]" "{}") "s"
      (by decide) (taskWF_newTaskHash "f" "s" "[]" "{}") rfl
  exact ⟨info, hget, hiff.2 rfl⟩

/-- An Expired answer from `get_user` means the active `max_date` was absent. -/
theorem activeMaxDate_none_of_expired (st : SessionStore) (sid : String)
    (e : ExpiredUser) (he : RedisManager.get_user st sid = .expired e) :
    st.activeMaxDate sid = none := by
  unfold RedisManager.get_user at he
  rcases ha : st.activeMaxDate sid with _ | md
  · rfl
  · rw [ha] at he
    cases he

/-- A Current answer from `get_user` carries the stored active `max_date`. -/
theorem get_user_current_activeMaxDate (st : SessionStore) (sid : String)
    (c : CurrentUser) (hc : RedisManager.get_user st sid = .current c) :
    st.activeMaxDate sid = some c.max_date := by
  unfold RedisManager.get_user at hc
  rcases ha : st.activeMaxDate sid with _ | md
  · rw [ha] at hc
    unfold RedisManager.get_expired_user at hc
    rcases hi : st.inactiveMaxDate sid with _ | md2 <;> rw [hi] at hc <;> cases hc
  · rw [ha] at hc
    cases hc
    rfl

/-- On a live session `delete_user` wins: it returns `True`, removes the
active hash and installs the inactive hash. -/
theorem delete_user_wins (st : SessionStore) (sid : String) (e : SessionHash)
    (md : ℚ) (ha : st.activeMaxDate sid = some md) :
    (RedisManager.delete_user st sid e).1 = true ∧
    (RedisManager.delete_user st sid e).2.active sid = none ∧
    (RedisManager.delete_user st sid e).2.inactive sid = some e := by
  have hne : ¬ st.activeMaxDate sid = none := by simp [ha]
  have hsome : (st.active sid).isSome = true := by
    rcases hk : st.active sid with _ | hsh
    · simp [SessionStore.activeMaxDate, hk] at ha
    · rfl
  simp [RedisManager.delete_user, hne, hsome, updKey]

/-- `finished_dispose` touches only the inactive hashes. -/
theorem finished_dispose_active_marker (st : SessionStore) (sid : String) :
    (RedisManager.finished_dispose st sid).active = st.active ∧
    (RedisManager.finished_dispose st sid).marker = st.marker := by
  simp only [RedisManager.finished_dispose]
  split_ifs <;> exact ⟨rfl, rfl⟩

/-- `update_data` never touches the existence markers. -/
theorem update_data_marker_eq (st : SessionStore) (sid : String) (d : String) :
    (RedisManager.update_data st sid d).marker = st.marker := by
  simp only [RedisManager.update_data]
  split_ifs <;> rfl

/-- The dispose-hook data write never resurrects a deleted active hash. -/
theorem disposeHookWrite_active_none (cfg : WebLabCfg) (c : CurrentUser)
    (s : SessionStore) (sid : String) (hw : Option String)
    (hs : s.activeMaxDate sid = none) :
    (disposeHookWrite cfg c s sid hw).activeMaxDate sid = none := by
  unfold disposeHookWrite
  split_ifs with h1 h2
  · rcases hw with _ | d
    · exact hs
    · simp [SessionStore.activeMaxDate,
            update_data_active_observed_deleted s sid d hs]
  · exact hs
  · exact hs

/-- A `dispose_user` call on a session with no active record leaves the
state unchanged and never runs the hook. -/
theorem dispose_user_no_active (cfg : WebLabCfg) (st : LabState) (sid : String)
    (w : Bool) (hw : Option String)
    (ha : st.sessions.activeMaxDate sid = none) :
    (dispose_user cfg st sid w hw).state = st ∧
    (dispose_user cfg st sid w hw).hookRan = false := by
  rcases hu : RedisManager.get_user st.sessions sid with _ | c | e
  · simp [dispose_user, hu]
  · exact absurd (get_user_current_activeMaxDate _ _ _ hu) (by simp [ha])
  · simp only [dispose_user, hu]
    split_ifs <;> simp

/-- After any `dispose_user` call the session has no active `max_date`:
the winning path deletes it and every other path required it absent. -/
theorem dispose_user_post_active_none (cfg : WebLabCfg) (st : LabState)
    (sid : String) (w : Bool) (hw : Option String) :
    (dispose_user cfg st sid w hw).state.sessions.activeMaxDate sid = none := by
  rcases hu : RedisManager.get_user st.sessions sid with _ | c | e
  · have hnone := ((get_user_anonymous_iff st.sessions sid).1 hu).1
    simp only [dispose_user, hu]
    exact hnone
  · have hmd := get_user_current_activeMaxDate _ _ _ hu
    obtain ⟨hwin, hact, hinact⟩ := delete_user_wins st.sessions sid
      (RedisManager.deleteUserInactiveHash c) c.max_date hmd
    have hdel2 : (RedisManager.delete_user st.sessions sid
        (RedisManager.deleteUserInactiveHash c)).2.activeMaxDate sid = none := by
      simp [SessionStore.activeMaxDate, hact]
    have hs2 := disposeHookWrite_active_none cfg c _ sid hw hdel2
    have hs3 : (RedisManager.finished_dispose
        (disposeHookWrite cfg c (RedisManager.delete_user st.sessions sid
          (RedisManager.deleteUserInactiveHash c)).2 sid hw) sid).activeMaxDate
        sid = none := by
      rw [SessionStore.activeMaxDate,
          (finished_dispose_active_marker _ sid).1]
      exact hs2
    simp only [dispose_user, hu, hwin, if_true]
    split_ifs with hdrain
    · exact hs3
    · exact hs3
  · have hnone := activeMaxDate_none_of_expired st.sessions sid e hu
    simp only [dispose_user, hu]
    split_ifs <;> exact hnone

/-- Unfolding `hookCount` over a first outcome. -/
theorem hookCount_cons (o : DisposeOutcome) (os : List DisposeOutcome) :
    hookCount (o :: os) = (if o.hookRan = true then 1 else 0) + hookCount os := by
  simp only [hookCount, List.filter_cons]
  split_ifs <;> simp [Nat.add_comm]

/-- A dispose sequence on a session with no active record runs no hook. -/
theorem disposeSeq_no_active (cfg : WebLabCfg) (sid : String)
    (ps : List (Bool × Option String)) :
    ∀ st : LabState, st.sessions.activeMaxDate sid = none →
      hookCount (disposeSeq cfg st sid ps) = 0 := by
  induction ps with
  | nil => intro st ha; rfl
  | cons p ps ih =>
      intro st ha
      obtain ⟨hstate, hhook⟩ := dispose_user_no_active cfg st sid p.1 p.2 ha
      simp only [disposeSeq, hookCount_cons, hhook, hstate]
      simp [ih st ha]

/-- C1: across any sequence of `dispose_user` calls on a session the
`on_dispose` hook runs at most once; a call on an Anonymous session
raises `NotFoundError`; a call on an already-Expired session runs no hook
and changes nothing; and the hook runs only for a caller that found a
Current user, has a hook registered, and whose backend `delete_user`
(the atomic active-to-inactive transition) returned `True`. -/
theorem c1_dispose_hook_at_most_once (cfg : WebLabCfg) (st : LabState)
    (sid : String) :
    (∀ ps, hookCount (disposeSeq cfg st sid ps) ≤ 1) ∧
    (RedisManager.get_user st.sessions sid = .anonymous →
        ∀ w hw, dispose_user cfg st sid w hw = ⟨.notFound, st, false⟩) ∧
    (∀ e, RedisManager.get_user st.sessions sid = .expired e → ∀ w hw,
        (dispose_user cfg st sid w hw).hookRan = false ∧
        (dispose_user cfg st sid w hw).state = st) ∧
    (∀ w hw, (dispose_user cfg st sid w hw).hookRan = true →
        ∃ c, RedisManager.get_user st.sessions sid = .current c ∧
          cfg.hasOnDispose = true ∧
          (RedisManager.delete_user st.sessions sid
            (RedisManager.deleteUserInactiveHash c)).1 = true) := by
  refine ⟨?_, ?_, ?_, ?_⟩
  · intro ps
    cases ps with
    | nil => simp [disposeSeq, hookCount]
    | cons p ps =>
        have hrest := disposeSeq_no_active cfg sid ps
          (dispose_user cfg st sid p.1 p.2).state
          (dispose_user_post_active_none cfg st sid p.1 p.2)
        simp only [disposeSeq, hookCount_cons, hrest]
        split_ifs <;> omega
  · intro han w hw
    simp [dispose_user, han]
  · intro e he w hw
    simp only [dispose_user, he]
    split_ifs <;> exact ⟨rfl, rfl⟩
  · intro w hw hr
    rcases hu : RedisManager.get_user st.sessions sid with _ | c | e
    · simp [dispose_user, hu] at hr
    · have hmd := get_user_current_activeMaxDate _ _ _ hu
      obtain ⟨hwin, -, -⟩ := delete_user_wins st.sessions sid
        (RedisManager.deleteUserInactiveHash c) c.max_date hmd
      simp only [dispose_user, hu, hwin, if_true] at hr
      split_ifs at hr
      · exact ⟨c, rfl, hr, hwin⟩
      · exact ⟨c, rfl, hr, hwin⟩
    · simp only [dispose_user, hu] at hr
      split_ifs at hr

/-- C1 witness: disposing an unknown session id reports not-found without
running any hook. -/
theorem c1_dispose_hook_at_most_once_witness :
    dispose_user cfg0 emptyLab "s" false none = ⟨.notFound, emptyLab, false⟩ :=
  (c1_dispose_hook_at_most_once cfg0 emptyLab "s").2.1 rfl false none

end Weblablib
